import Mathlib

/-!
# Verification of the strategy execution engine

Shallow embedding of the strategy execution engine of a futures order bot:
the TWAP scheduler (`src/advanced/twap.py`), the grid manager
(`src/advanced/grid_orders.py`) and the OCO coordinator
(`src/advanced/oco.py`).  Prices and quantities are embedded as rationals;
the exchange client is an explicit environment parameter (each call site of
the client becomes a lookup in the environment); exceptions become
`Except`/`Option` results; background threads become explicit recursive
loops over that environment.
-/

namespace BinanceBot

/-- Order side, the strings 'BUY' / 'SELL' of the source. -/
inductive Side where
  | BUY
  | SELL
deriving DecidableEq, Repr

/-- Run status strings that appear in the source: 'ACTIVE' and 'COMPLETED',
'FAILED' (twap.py), 'CANCELLED' and 'STOPPED' (grid_orders.py). -/
inductive RunStatus where
  | ACTIVE
  | COMPLETED
  | CANCELLED
  | FAILED
  | STOPPED
deriving DecidableEq, Repr

/-- Child-order status strings of the source: 'PLACED', 'FILLED',
'CANCELLED', 'FAILED'. -/
inductive ChildStatus where
  | PLACED
  | FILLED
  | CANCELLED
  | FAILED
deriving DecidableEq, Repr

/-! ## Grid level computation (`GridOrderManager._calculate_grid_levels`) -/

/-- `_calculate_grid_levels` of grid_orders.py:
`price_step = (upper_price - lower_price) / (num_levels - 1)` and
`[lower_price + i * price_step for i in range(num_levels)]`. -/
def calculate_grid_levels (lower_price upper_price : ℚ) (num_levels : ℕ) :
    List ℚ :=
  let price_step := (upper_price - lower_price) / ((num_levels : ℚ) - 1)
  (List.range num_levels).map (fun (i : ℕ) => lower_price + (i : ℚ) * price_step)

/-! ## TWAP chunk sizing (`TWAPOrderManager._execute_twap`, lines 193-199) -/

/-- The chunk quantity computed by `_execute_twap` at iteration `chunk_num`:
`chunk_size = total_quantity / num_chunks`, overridden for the last index by
`remaining_quantity = total_quantity - executed_quantity`. -/
def chunk_quantity (total_quantity : ℚ) (num_chunks : ℕ)
    (executed_quantity : ℚ) (chunk_num : ℕ) : ℚ :=
  if chunk_num = num_chunks - 1 then total_quantity - executed_quantity
  else total_quantity / (num_chunks : ℚ)

/-- Executed quantity after `k` chunks when every chunk executes exactly its
planned quantity (the mock-exchange reading of the TWAP loop). -/
def executedAfter (total_quantity : ℚ) (num_chunks : ℕ) : ℕ → ℚ
  | 0 => 0
  | k + 1 =>
      executedAfter total_quantity num_chunks k +
        chunk_quantity total_quantity num_chunks
          (executedAfter total_quantity num_chunks k) k

lemma executedAfter_eq_mul (total : ℚ) (n : ℕ) (hn : 2 ≤ n) :
    ∀ k, k ≤ n - 1 → executedAfter total n k = (k : ℚ) * (total / (n : ℚ))
  | 0, _ => by simp [executedAfter]
  | k + 1, hk => by
      have hklt : k + 1 ≠ n - 1 → k + 1 ≤ n - 1 := fun _ => hk
      have hkle : k ≤ n - 1 := Nat.le_of_succ_le hk
      have hne : k ≠ n - 1 := by omega
      rw [executedAfter, executedAfter_eq_mul total n hn k hkle,
        chunk_quantity, if_neg hne]
      push_cast
      ring

/-- C6: the planned chunk quantity is `total/n` for every index before the
last; the last chunk is the remaining quantity; and when every chunk
executes exactly its plan the total executed after all `n` chunks is exactly
`total` — no rounding drift. -/
theorem twap_chunk_sizes_sum_exact (total : ℚ) (n : ℕ) (hn : 2 ≤ n) :
    (∀ k, k < n - 1 →
        chunk_quantity total n (executedAfter total n k) k = total / (n : ℚ)) ∧
    chunk_quantity total n (executedAfter total n (n - 1)) (n - 1) =
      total - executedAfter total n (n - 1) ∧
    executedAfter total n n = total := by
  refine ⟨fun k hk => ?_, ?_, ?_⟩
  · rw [chunk_quantity, if_neg (by omega)]
  · rw [chunk_quantity, if_pos rfl]
  · have hsub : executedAfter total n n = executedAfter total n ((n - 1) + 1) := by
      congr 1
      omega
    rw [hsub, executedAfter,
      executedAfter_eq_mul total n hn (n - 1) le_rfl,
      chunk_quantity, if_pos rfl]
    ring

/-- Witness for C6 at `total = 1`, `n = 4`. -/
theorem twap_chunk_sizes_sum_exact_witness :
    (2 ≤ 4) ∧
    ((∀ k, k < 4 - 1 →
        chunk_quantity 1 4 (executedAfter 1 4 k) k = 1 / (4 : ℚ)) ∧
      chunk_quantity 1 4 (executedAfter 1 4 (4 - 1)) (4 - 1) =
        1 - executedAfter 1 4 (4 - 1) ∧
      executedAfter 1 4 4 = 1) :=
  ⟨by decide, twap_chunk_sizes_sum_exact 1 4 (by decide)⟩

lemma calculate_grid_levels_getD (l u : ℚ) (n : ℕ) (i : ℕ) (hi : i < n) :
    (calculate_grid_levels l u n).getD i 0 =
      l + (i : ℚ) * ((u - l) / ((n : ℚ) - 1)) := by
  simp only [calculate_grid_levels]
  rw [List.getD_eq_getElem?_getD, List.getElem?_map, List.getElem?_range hi]
  rfl

/-- C7: for `lower < upper` and `numLevels ≥ 3`, `_calculate_grid_levels`
returns a list of length `numLevels` whose `i`-th element is
`lower + i·(upper−lower)/(numLevels−1)`; the list is strictly increasing,
starts at `lower` and ends at `upper`. -/
theorem grid_levels_spec (l u : ℚ) (n : ℕ) (hl : l < u) (hn : 3 ≤ n) :
    (calculate_grid_levels l u n).length = n ∧
    (∀ i, i < n → (calculate_grid_levels l u n).getD i 0 =
      l + (i : ℚ) * ((u - l) / ((n : ℚ) - 1))) ∧
    List.Pairwise (· < ·) (calculate_grid_levels l u n) ∧
    (calculate_grid_levels l u n).getD 0 0 = l ∧
    (calculate_grid_levels l u n).getD (n - 1) 0 = u := by
  have hn1 : (1 : ℚ) < (n : ℚ) := by
    exact_mod_cast Nat.lt_of_lt_of_le (by norm_num) hn
  have hstep : (0 : ℚ) < (u - l) / ((n : ℚ) - 1) :=
    div_pos (by linarith) (by linarith)
  have hne : ((n : ℚ) - 1) ≠ 0 := by linarith
  refine ⟨?_, fun i hi => calculate_grid_levels_getD l u n i hi, ?_, ?_, ?_⟩
  · simp only [calculate_grid_levels, List.length_map, List.length_range]
  · simp only [calculate_grid_levels]
    have h := List.pairwise_lt_range n
    refine List.Pairwise.map _ (fun a b hab => ?_) h
    have : (a : ℚ) < (b : ℚ) := by exact_mod_cast hab
    nlinarith
  · rw [calculate_grid_levels_getD l u n 0 (by omega)]
    simp
  · rw [calculate_grid_levels_getD l u n (n - 1) (by omega)]
    have hcast : ((n - 1 : ℕ) : ℚ) = (n : ℚ) - 1 := by
      have : 1 ≤ n := by omega
      push_cast [this]
      ring
    have hmul : ((n : ℚ) - 1) * ((u - l) / ((n : ℚ) - 1)) = u - l := by
      field_simp
    rw [hcast, hmul]
    ring

/-- Witness for C7 at `lower = 45000`, `upper = 55000`, `numLevels = 11`. -/
theorem grid_levels_spec_witness :
    ((45000 : ℚ) < 55000 ∧ 3 ≤ 11) ∧
    ((calculate_grid_levels 45000 55000 11).length = 11 ∧
      (∀ i, i < 11 → (calculate_grid_levels 45000 55000 11).getD i 0 =
        45000 + (i : ℚ) * ((55000 - 45000) / ((11 : ℚ) - 1))) ∧
      List.Pairwise (· < ·) (calculate_grid_levels 45000 55000 11) ∧
      (calculate_grid_levels 45000 55000 11).getD 0 0 = 45000 ∧
      (calculate_grid_levels 45000 55000 11).getD (11 - 1) 0 = 55000) :=
  ⟨⟨by norm_num, by norm_num⟩,
    grid_levels_spec 45000 55000 11 (by norm_num) (by norm_num)⟩

/-! ## TWAP execution loop (`TWAPOrderManager._execute_twap`)

The exchange client and the concurrently-mutated stop flag become an
explicit environment: `stopFlag k` is the value of
`self.stop_flags.get(twap_id, False)` read at iteration `k`;
`chunkResult k` is the outcome of `_execute_chunk` at iteration `k`
(`Except.error` = the exception caught at line 223, `Except.ok none` = the
chunk skipped by the price-limit gate, `Except.ok (some r)` = the market
order response); `sleepError k` is an exception raised by the wait between
chunks (outside the inner `try`, so it reaches the outer handler and the
run is marked FAILED). -/

/-- One fill entry of an exchange order response. -/
structure Fill where
  qty : ℚ
  price : ℚ
deriving DecidableEq, Repr

/-- An exchange market-order response as used by `_execute_twap`:
`executedQty` may be absent (the source reads
`chunk_result.get('executedQty', chunk_size)`). -/
structure OrderResult where
  orderId : ℕ
  executedQty : Option ℚ
  fills : List Fill
deriving DecidableEq, Repr

/-- `sum(float(fill['qty']) * float(fill['price']) for fill in fills)`. -/
def fills_value (fills : List Fill) : ℚ :=
  (fills.map (fun f => f.qty * f.price)).sum

/-- Environment of one TWAP worker run. -/
structure TwapEnv where
  stopFlag : ℕ → Bool
  chunkResult : ℕ → Except String (Option OrderResult)
  sleepError : ℕ → Option String

/-- The mutable fields of `twap_info` touched by `_execute_twap`, plus an
instrumentation trace `attempted` recording the iterations whose chunk
execution was reached (i.e. not cut off by the stop flag or an earlier
abort). -/
structure TwapState where
  executed_chunks : ℕ
  executed_quantity : ℚ
  total_value : ℚ
  orders : List OrderResult
  status : RunStatus
  error : Option String
  attempted : List ℕ
deriving DecidableEq, Repr

def initialTwapState : TwapState :=
  { executed_chunks := 0, executed_quantity := 0, total_value := 0,
    orders := [], status := RunStatus.ACTIVE, error := none, attempted := [] }

/-- The `for chunk_num in range(num_chunks)` loop of `_execute_twap`,
structurally recursive on the number of remaining iterations
(`remaining = num_chunks - chunk_num` at every call site). -/
def executeTwapLoop (env : TwapEnv) (total_quantity : ℚ) (num_chunks : ℕ) :
    ℕ → ℕ → TwapState → TwapState
  | 0, _, s => s
  | remaining + 1, chunk_num, s =>
    if env.stopFlag chunk_num then s
    else
      let chunk_size :=
        chunk_quantity total_quantity num_chunks s.executed_quantity chunk_num
      let s1 :=
        match env.chunkResult chunk_num with
        | Except.ok (some r) =>
            { s with
              executed_chunks := s.executed_chunks + 1,
              executed_quantity :=
                s.executed_quantity + r.executedQty.getD chunk_size,
              total_value := s.total_value + fills_value r.fills,
              orders := s.orders ++ [r],
              attempted := s.attempted ++ [chunk_num] }
        | Except.ok none => { s with attempted := s.attempted ++ [chunk_num] }
        | Except.error _ => { s with attempted := s.attempted ++ [chunk_num] }
      if chunk_num < num_chunks - 1 then
        match env.sleepError chunk_num with
        | some e => { s1 with status := RunStatus.FAILED, error := some e }
        | none => executeTwapLoop env total_quantity num_chunks remaining (chunk_num + 1) s1
      else executeTwapLoop env total_quantity num_chunks remaining (chunk_num + 1) s1

/-- `_execute_twap`: run the loop from iteration 0; after the loop (also
after a stop-flag `break`) the status is set to COMPLETED, unless the outer
exception handler already marked it FAILED. -/
def execute_twap (env : TwapEnv) (total_quantity : ℚ) (num_chunks : ℕ) :
    TwapState :=
  let s := executeTwapLoop env total_quantity num_chunks num_chunks 0
    initialTwapState
  if s.status = RunStatus.FAILED then s
  else { s with status := RunStatus.COMPLETED }

lemma executeTwapLoop_attempted_flag (env : TwapEnv) (total : ℚ) (n : ℕ) :
    ∀ remaining chunk_num s,
      (∀ j ∈ s.attempted, env.stopFlag j = false) →
      ∀ j ∈ (executeTwapLoop env total n remaining chunk_num s).attempted,
        env.stopFlag j = false := by
  intro remaining
  induction remaining with
  | zero => intro chunk_num s hs; exact hs
  | succ m ih =>
    intro chunk_num s hs
    rw [executeTwapLoop]
    by_cases hstop : env.stopFlag chunk_num
    · simp only [hstop, if_true]
      exact hs
    · simp only [hstop, Bool.false_eq_true, if_false]
      have hflag : env.stopFlag chunk_num = false := by
        simpa using hstop
      have hsApp : ∀ j ∈ s.attempted ++ [chunk_num], env.stopFlag j = false := by
        intro j hj
        rw [List.mem_append] at hj
        rcases hj with hj | hj
        · exact hs j hj
        · rw [List.mem_singleton] at hj
          rw [hj]
          exact hflag
      cases hres : env.chunkResult chunk_num with
      | ok o =>
        cases o with
        | some r =>
          simp only [hres]
          split
          · cases hsl : env.sleepError chunk_num with
            | some e => simp only [hsl]; exact hsApp
            | none => simp only [hsl]; exact ih _ _ hsApp
          · exact ih _ _ hsApp
        | none =>
          simp only [hres]
          split
          · cases hsl : env.sleepError chunk_num with
            | some e => simp only [hsl]; exact hsApp
            | none => simp only [hsl]; exact ih _ _ hsApp
          · exact ih _ _ hsApp
      | error e =>
        simp only [hres]
        split
        · cases hsl : env.sleepError chunk_num with
          | some e2 => simp only [hsl]; exact hsApp
          | none => simp only [hsl]; exact ih _ _ hsApp
        · exact ih _ _ hsApp

lemma executeTwapLoop_status_no_sleep_error (env : TwapEnv) (total : ℚ)
    (n : ℕ) (hsleep : ∀ j, env.sleepError j = none) :
    ∀ remaining chunk_num s,
      (executeTwapLoop env total n remaining chunk_num s).status = s.status := by
  intro remaining
  induction remaining with
  | zero => intro chunk_num s; rfl
  | succ m ih =>
    intro chunk_num s
    rw [executeTwapLoop]
    by_cases hstop : env.stopFlag chunk_num
    · simp only [hstop, if_true]
    · simp only [hstop, Bool.false_eq_true, if_false]
      cases hres : env.chunkResult chunk_num with
      | ok o =>
        cases o with
        | some r =>
          simp only [hres]
          split
          · rw [hsleep chunk_num]
            exact ih _ _
          · exact ih _ _
        | none =>
          simp only [hres]
          split
          · rw [hsleep chunk_num]
            exact ih _ _
          · exact ih _ _
      | error e =>
        simp only [hres]
        split
        · rw [hsleep chunk_num]
          exact ih _ _
        · exact ih _ _

/-- The order appended to `twap_info['orders']` at iteration `j`, when the
chunk neither raised nor was skipped. -/
def successfulOrder (env : TwapEnv) (j : ℕ) : Option OrderResult :=
  match env.chunkResult j with
  | Except.ok (some r) => some r
  | Except.ok none => none
  | Except.error _ => none

lemma executeTwapLoop_run_all (env : TwapEnv) (total : ℚ) (n : ℕ)
    (hstop : ∀ j, env.stopFlag j = false)
    (hsleep : ∀ j, env.sleepError j = none) :
    ∀ remaining chunk_num s,
      (executeTwapLoop env total n remaining chunk_num s).attempted =
        s.attempted ++ List.range' chunk_num remaining ∧
      (executeTwapLoop env total n remaining chunk_num s).orders =
        s.orders ++ (List.range' chunk_num remaining).filterMap
          (successfulOrder env) := by
  intro remaining
  induction remaining with
  | zero => intro chunk_num s; simp [executeTwapLoop]
  | succ m ih =>
    intro chunk_num s
    rw [executeTwapLoop]
    simp only [hstop chunk_num, Bool.false_eq_true, if_false,
      List.range'_succ, List.filterMap_cons]
    cases hres : env.chunkResult chunk_num with
    | ok o =>
      cases o with
      | some r =>
        simp only [hres]
        split
        · rw [hsleep chunk_num]
          have h := ih (chunk_num + 1)
            { s with
              executed_chunks := s.executed_chunks + 1,
              executed_quantity := s.executed_quantity +
                r.executedQty.getD
                  (chunk_quantity total n s.executed_quantity chunk_num),
              total_value := s.total_value + fills_value r.fills,
              orders := s.orders ++ [r],
              attempted := s.attempted ++ [chunk_num] }
          simp only [successfulOrder, hres]
          refine ⟨?_, ?_⟩
          · rw [h.1]; simp
          · rw [h.2]; simp
        · have h := ih (chunk_num + 1)
            { s with
              executed_chunks := s.executed_chunks + 1,
              executed_quantity := s.executed_quantity +
                r.executedQty.getD
                  (chunk_quantity total n s.executed_quantity chunk_num),
              total_value := s.total_value + fills_value r.fills,
              orders := s.orders ++ [r],
              attempted := s.attempted ++ [chunk_num] }
          simp only [successfulOrder, hres]
          refine ⟨?_, ?_⟩
          · rw [h.1]; simp
          · rw [h.2]; simp
      | none =>
        simp only [hres]
        split
        · rw [hsleep chunk_num]
          have h := ih (chunk_num + 1) { s with attempted := s.attempted ++ [chunk_num] }
          simp only [successfulOrder, hres]
          refine ⟨?_, ?_⟩
          · rw [h.1]; simp
          · rw [h.2]
        · have h := ih (chunk_num + 1) { s with attempted := s.attempted ++ [chunk_num] }
          simp only [successfulOrder, hres]
          refine ⟨?_, ?_⟩
          · rw [h.1]; simp
          · rw [h.2]
    | error e =>
      simp only [hres]
      split
      · rw [hsleep chunk_num]
        have h := ih (chunk_num + 1) { s with attempted := s.attempted ++ [chunk_num] }
        simp only [successfulOrder, hres]
        refine ⟨?_, ?_⟩
        · rw [h.1]; simp
        · rw [h.2]
      · have h := ih (chunk_num + 1) { s with attempted := s.attempted ++ [chunk_num] }
        simp only [successfulOrder, hres]
        refine ⟨?_, ?_⟩
        · rw [h.1]; simp
        · rw [h.2]

/-- Environment of the C1 counterexample: the stop flag is already set when
the worker makes its first loop-boundary check. -/
def envStopC1 : TwapEnv :=
  { stopFlag := fun _ => true,
    chunkResult := fun _ => Except.ok none,
    sleepError := fun _ => none }

/-- C1 counterexample: a TWAP run of 2 chunks whose stop flag is observed
set at the very first loop boundary (no chunk processed) still ends with
status COMPLETED — the post-loop assignment at twap.py line 233 runs after
the `break`, so the final status is not different from COMPLETED. -/
theorem twap_stop_still_completed_cex :
    (execute_twap envStopC1 1 2).status = RunStatus.COMPLETED ∧
    (execute_twap envStopC1 1 2).attempted = [] ∧
    (execute_twap envStopC1 1 2).executed_chunks = 0 :=
  ⟨rfl, rfl, rfl⟩

/-- C1 amended: observing the stop flag at a loop boundary stops the loop —
no chunk is attempted at or after an iteration where the flag was observed
set (with a monotone flag, every attempted iteration precedes every
iteration at which the flag is set) — but the run's final status is
COMPLETED, not a distinct cancellation status (assuming no mid-run
exception, which would give FAILED instead). -/
theorem twap_stop_completed_no_orders_after (env : TwapEnv) (total : ℚ)
    (n k : ℕ)
    (hsleep : ∀ j, env.sleepError j = none)
    (hmono : ∀ i j, i ≤ j → env.stopFlag i = true → env.stopFlag j = true)
    (hk : env.stopFlag k = true) :
    (execute_twap env total n).status = RunStatus.COMPLETED ∧
    ∀ j ∈ (execute_twap env total n).attempted,
      env.stopFlag j = false ∧ j < k := by
  have hstatus :
      (executeTwapLoop env total n n 0 initialTwapState).status =
        RunStatus.ACTIVE :=
    executeTwapLoop_status_no_sleep_error env total n hsleep n 0
      initialTwapState
  have hflag := executeTwapLoop_attempted_flag env total n n 0
    initialTwapState (by intro j hj; simp [initialTwapState] at hj)
  constructor
  · rw [execute_twap]
    simp only [hstatus]
    rfl
  · intro j hj
    have hj2 : j ∈ (executeTwapLoop env total n n 0 initialTwapState).attempted := by
      rw [execute_twap] at hj
      simp only [hstatus] at hj
      exact hj
    have hjf := hflag j hj2
    refine ⟨hjf, ?_⟩
    by_contra hlt
    push_neg at hlt
    have := hmono k j hlt hk
    rw [hjf] at this
    exact Bool.false_ne_true this

/-- Witness for the C1 amended theorem at a concrete environment. -/
theorem twap_stop_completed_no_orders_after_witness :
    (execute_twap envStopC1 1 2).status = RunStatus.COMPLETED ∧
    ∀ j ∈ (execute_twap envStopC1 1 2).attempted,
      envStopC1.stopFlag j = false ∧ j < 0 :=
  twap_stop_completed_no_orders_after envStopC1 1 2 0
    (fun _ => rfl) (fun _ _ _ _ => rfl) rfl

/-- Environment of the C5 counterexample: chunk 0 raises on submission,
chunk 1 succeeds with a full fill. -/
def envChunkFailC5 : TwapEnv :=
  { stopFlag := fun _ => false,
    chunkResult := fun j =>
      if j = 0 then Except.error "order submission failed"
      else Except.ok (some { orderId := 2, executedQty := some (1/2),
                             fills := [{ qty := 1/2, price := 100 }] }),
    sleepError := fun _ => none }

/-- C5 counterexample: a 2-chunk TWAP run whose first chunk submission
raises ends with exactly one child order (the successful chunk 1 response)
and status COMPLETED: no child-order record with status FAILED is appended
for chunk 0, so its failure is reflected neither in a child order nor in
the run's terminal status. -/
theorem twap_chunk_error_no_failed_record_cex :
    (execute_twap envChunkFailC5 1 2).orders =
      [{ orderId := 2, executedQty := some (1/2),
         fills := [{ qty := 1/2, price := 100 }] }] ∧
    (execute_twap envChunkFailC5 1 2).executed_chunks = 1 ∧
    (execute_twap envChunkFailC5 1 2).attempted = [0, 1] ∧
    (execute_twap envChunkFailC5 1 2).status = RunStatus.COMPLETED := by
  refine ⟨?_, rfl, rfl, rfl⟩
  show [({ orderId := 2, executedQty := some (1/2),
           fills := [{ qty := 1/2, price := 100 }] } : OrderResult)] = _
  norm_num

/-- C5 amended: a chunk submission error does not abort the run — the
worker continues with the next chunk and every chunk index is attempted —
but no FAILED child order is appended: the run's order list contains
exactly the successful chunks' exchange responses, and the run still ends
COMPLETED (the failure is visible only in the log and in
`executed_chunks < num_chunks`). -/
theorem twap_chunk_error_continue_spec (env : TwapEnv) (total : ℚ) (n : ℕ)
    (hstop : ∀ j, env.stopFlag j = false)
    (hsleep : ∀ j, env.sleepError j = none) :
    (execute_twap env total n).status = RunStatus.COMPLETED ∧
    (execute_twap env total n).attempted = List.range n ∧
    (execute_twap env total n).orders =
      (List.range n).filterMap (successfulOrder env) := by
  have hstatus :
      (executeTwapLoop env total n n 0 initialTwapState).status =
        RunStatus.ACTIVE :=
    executeTwapLoop_status_no_sleep_error env total n hsleep n 0
      initialTwapState
  have hrun := executeTwapLoop_run_all env total n hstop hsleep n 0
    initialTwapState
  rw [execute_twap]
  simp only [hstatus]
  refine ⟨rfl, ?_, ?_⟩
  · show (executeTwapLoop env total n n 0 initialTwapState).attempted = _
    rw [hrun.1, List.range_eq_range']
    simp [initialTwapState]
  · show (executeTwapLoop env total n n 0 initialTwapState).orders = _
    rw [hrun.2, List.range_eq_range']
    simp [initialTwapState]

/-- Witness for the C5 amended theorem at the counterexample environment. -/
theorem twap_chunk_error_continue_spec_witness :
    (execute_twap envChunkFailC5 1 2).status = RunStatus.COMPLETED ∧
    (execute_twap envChunkFailC5 1 2).attempted = List.range 2 ∧
    (execute_twap envChunkFailC5 1 2).orders =
      (List.range 2).filterMap (successfulOrder envChunkFailC5) :=
  twap_chunk_error_continue_spec envChunkFailC5 1 2
    (fun _ => rfl) (fun _ => rfl)

/-! ## Grid monitoring loop (`GridOrderManager._monitor_grid`)

`while not self.stop_flags.get(grid_id, False) and grid_info['status'] ==
'ACTIVE': ...` followed by `grid_info['status'] = 'STOPPED'`.  The loop body
(fill detection) never writes the run status, so only the stop flag and the
status observed at each check matter; `fuel` bounds the observation window
of the unbounded `while`. -/

structure GridMonitorEnv where
  stopFlag : ℕ → Bool

/-- The monitor loop: returns the run status after the loop wrote its exit
value, or the unchanged status if `fuel` ran out while still looping. -/
def monitorGridLoop (env : GridMonitorEnv) : ℕ → ℕ → RunStatus → RunStatus
  | 0, _, st => st
  | fuel + 1, t, st =>
    if env.stopFlag t = false ∧ st = RunStatus.ACTIVE then
      monitorGridLoop env fuel (t + 1) st
    else RunStatus.STOPPED

/-- C2 counterexample: the grid monitor writes the status 'STOPPED', which
is not in the spec's four-value enum, and does so even when the observed
status is the terminal CANCELLED (set by `cancel_all_grid_orders`) — a
transition out of a terminal state. -/
theorem run_status_stopped_cex :
    monitorGridLoop { stopFlag := fun _ => true } 1 0 RunStatus.ACTIVE =
      RunStatus.STOPPED ∧
    RunStatus.STOPPED ∉
      [RunStatus.ACTIVE, RunStatus.COMPLETED, RunStatus.CANCELLED,
        RunStatus.FAILED] ∧
    monitorGridLoop { stopFlag := fun _ => false } 1 0 RunStatus.CANCELLED =
      RunStatus.STOPPED := by
  refine ⟨rfl, by decide, rfl⟩

/-- C2 amended: run statuses range over {ACTIVE, COMPLETED, CANCELLED,
FAILED, STOPPED}.  A TWAP run always ends COMPLETED or FAILED; the grid
monitor loop, whenever it observes a non-ACTIVE status (including the
terminal CANCELLED), exits and overwrites the status with STOPPED — so the
spec's four-value enum and its no-exit-from-terminal invariant do not hold
for grid runs. -/
theorem run_status_transitions_amended (env : TwapEnv) (total : ℚ) (n : ℕ)
    (genv : GridMonitorEnv) (fuel t : ℕ) (st : RunStatus)
    (hst : st ≠ RunStatus.ACTIVE) :
    ((execute_twap env total n).status = RunStatus.COMPLETED ∨
      (execute_twap env total n).status = RunStatus.FAILED) ∧
    monitorGridLoop genv (fuel + 1) t st = RunStatus.STOPPED := by
  constructor
  · by_cases h :
        (executeTwapLoop env total n n 0 initialTwapState).status =
          RunStatus.FAILED
    · right
      simp [execute_twap, h]
    · left
      simp [execute_twap, h]
  · rw [monitorGridLoop]
    simp [hst]

/-- Witness for the C2 amended theorem at concrete inputs. -/
theorem run_status_transitions_amended_witness :
    (((execute_twap envStopC1 1 2).status = RunStatus.COMPLETED ∨
       (execute_twap envStopC1 1 2).status = RunStatus.FAILED) ∧
      monitorGridLoop { stopFlag := fun _ => false } 1 0
        RunStatus.CANCELLED = RunStatus.STOPPED) :=
  run_status_transitions_amended envStopC1 1 2
    { stopFlag := fun _ => false } 0 0 RunStatus.CANCELLED (by decide)

/-! ## OCO coordinator (`OCOOrderManager._place_simulated_oco`)

The exchange client becomes an environment indexed by the call count:
`placeResult k` is the outcome of the `k`-th `place_order` call and
`cancelResult k` of the `k`-th `cancel_order` call.  The returned trace
records every exchange call issued. -/

/-- An exchange order response, reduced to the `orderId` the rollback
path reads. -/
structure ExOrder where
  orderId : ℕ
deriving DecidableEq, Repr

/-- One exchange-client call issued by the OCO coordinator. -/
inductive OcoCall where
  | place (side : Side) (order_type : String) (quantity : ℚ)
      (price : Option ℚ) (stopPrice : Option ℚ)
  | cancel (orderId : ℕ)
deriving DecidableEq, Repr

structure OcoEnv where
  placeResult : ℕ → Except String ExOrder
  cancelResult : ℕ → Except String Unit

/-- One leg of the returned `orders_result['orders']` list. -/
structure OcoLeg where
  leg_type : String
  order : ExOrder
deriving DecidableEq, Repr

/-- `tp_side = 'SELL' if side == 'BUY' else 'BUY'`. -/
def opposite_side (side : Side) : Side :=
  match side with
  | Side.BUY => Side.SELL
  | Side.SELL => Side.BUY

/-- `_place_simulated_oco`: place the take-profit limit order, then the
stop order; if the second placement raises while the first succeeded,
attempt exactly one cancel of the first order (its outcome is only
logged) and re-raise the original error. -/
def place_simulated_oco (env : OcoEnv) (side : Side)
    (quantity take_profit_price stop_loss_price stop_limit_price : ℚ) :
    Except String (List OcoLeg) × List OcoCall :=
  let tp_side := opposite_side side
  let sl_side := tp_side
  let tp_call :=
    OcoCall.place tp_side "LIMIT" quantity (some take_profit_price) none
  match env.placeResult 0 with
  | Except.error e => (Except.error e, [tp_call])
  | Except.ok tp_order =>
    let sl_call :=
      OcoCall.place sl_side "STOP" quantity (some stop_limit_price)
        (some stop_loss_price)
    match env.placeResult 1 with
    | Except.ok sl_order =>
        (Except.ok [{ leg_type := "TAKE_PROFIT", order := tp_order },
                    { leg_type := "STOP_LOSS", order := sl_order }],
          [tp_call, sl_call])
    | Except.error e =>
        (Except.error e,
          [tp_call, sl_call, OcoCall.cancel tp_order.orderId])

def is_cancel_call : OcoCall → Bool
  | OcoCall.cancel _ => true
  | OcoCall.place _ _ _ _ _ => false

/-- C3: when the take-profit placement succeeds and the stop-loss placement
raises, exactly one cancel call is issued, for the take-profit order, and
the original placement error is returned — independently of the cancel
outcome (the environment's `cancelResult` is arbitrary, so a failing cancel
cannot mask the original error). -/
theorem oco_rollback_spec (env : OcoEnv) (side : Side)
    (quantity tp sl slimit : ℚ) (o1 : ExOrder) (e : String)
    (h0 : env.placeResult 0 = Except.ok o1)
    (h1 : env.placeResult 1 = Except.error e) :
    (place_simulated_oco env side quantity tp sl slimit).1 =
      Except.error e ∧
    (place_simulated_oco env side quantity tp sl slimit).2.filter
      is_cancel_call = [OcoCall.cancel o1.orderId] := by
  simp [place_simulated_oco, h0, h1, is_cancel_call]

/-- Environment of the C3 witness: the stop-loss placement and even the
rollback cancel fail, yet the original error is surfaced. -/
def envOcoC3 : OcoEnv :=
  { placeResult := fun k =>
      if k = 0 then Except.ok { orderId := 11 }
      else Except.error "stop loss placement failed",
    cancelResult := fun _ => Except.error "cancel failed as well" }

/-- Witness for C3 at a concrete environment. -/
theorem oco_rollback_spec_witness :
    (place_simulated_oco envOcoC3 Side.SELL (1/100) 52000 48000 48000).1 =
      Except.error "stop loss placement failed" ∧
    (place_simulated_oco envOcoC3 Side.SELL (1/100) 52000 48000 48000).2.filter
      is_cancel_call = [OcoCall.cancel 11] :=
  oco_rollback_spec envOcoC3 Side.SELL (1/100) 52000 48000 48000
    { orderId := 11 } "stop loss placement failed" rfl rfl

/-! ## Grid cancellation (`GridOrderManager.cancel_all_grid_orders`)

The exchange client becomes `cancelResult : orderId → Option response`
(`none` = `cancel_order` raised).  The result carries, besides the updated
run, the `cancelled_orders` list the source returns and an instrumentation
trace of the orderIds for which a cancel request was issued. -/

/-- A grid child-order record
`{'order': order, 'level_price': level_price, 'status': ...}`. -/
structure GridChild where
  orderId : ℕ
  level_price : ℚ
  status : ChildStatus
deriving DecidableEq, Repr

/-- The grid-run fields touched by `cancel_all_grid_orders`. -/
structure GridRun where
  buy_orders : List GridChild
  sell_orders : List GridChild
  status : RunStatus
deriving DecidableEq, Repr

/-- One side of the cancellation pass: for each PLACED child issue a cancel
request; on success append the response and mark the child CANCELLED; on
failure log only and keep going.  Returns
(updated children, collected responses, cancel attempts). -/
def cancelSide (cancelResult : ℕ → Option ℕ) (orders : List GridChild) :
    List GridChild × List ℕ × List ℕ :=
  orders.foldl
    (fun acc c =>
      if c.status = ChildStatus.PLACED then
        match cancelResult c.orderId with
        | some resp =>
            (acc.1 ++ [{ c with status := ChildStatus.CANCELLED }],
              acc.2.1 ++ [resp], acc.2.2 ++ [c.orderId])
        | none => (acc.1 ++ [c], acc.2.1, acc.2.2 ++ [c.orderId])
      else (acc.1 ++ [c], acc.2.1, acc.2.2))
    ([], [], [])

/-- `cancel_all_grid_orders`: cancel the buy side, then the sell side, set
the run status to CANCELLED unconditionally, and return the collected
successful-cancel responses (`{'cancelled_orders': cancelled_orders}`). -/
def cancel_all_grid_orders (cancelResult : ℕ → Option ℕ) (g : GridRun) :
    GridRun × List ℕ × List ℕ :=
  let b := cancelSide cancelResult g.buy_orders
  let s := cancelSide cancelResult g.sell_orders
  ({ buy_orders := b.1, sell_orders := s.1, status := RunStatus.CANCELLED },
    b.2.1 ++ s.2.1, b.2.2 ++ s.2.2)

/-- The per-child effect of the cancellation pass: a PLACED child whose
cancel succeeded becomes CANCELLED; every other child is unchanged. -/
def markCancelled (cancelResult : ℕ → Option ℕ) (c : GridChild) : GridChild :=
  if c.status = ChildStatus.PLACED ∧ (cancelResult c.orderId).isSome then
    { c with status := ChildStatus.CANCELLED }
  else c

lemma cancelSide_go (cancelResult : ℕ → Option ℕ) :
    ∀ (orders : List GridChild) (acc : List GridChild × List ℕ × List ℕ),
      orders.foldl
        (fun acc c =>
          if c.status = ChildStatus.PLACED then
            match cancelResult c.orderId with
            | some resp =>
                (acc.1 ++ [{ c with status := ChildStatus.CANCELLED }],
                  acc.2.1 ++ [resp], acc.2.2 ++ [c.orderId])
            | none => (acc.1 ++ [c], acc.2.1, acc.2.2 ++ [c.orderId])
          else (acc.1 ++ [c], acc.2.1, acc.2.2)) acc =
      (acc.1 ++ orders.map (markCancelled cancelResult),
        acc.2.1 ++ (orders.filter
          (fun c => c.status = ChildStatus.PLACED)).filterMap
            (fun c => cancelResult c.orderId),
        acc.2.2 ++ (orders.filter
          (fun c => c.status = ChildStatus.PLACED)).map
            (fun c => c.orderId)) := by
  intro orders
  induction orders with
  | nil => intro acc; simp
  | cons c rest ih =>
    intro acc
    rw [List.foldl_cons]
    by_cases hc : c.status = ChildStatus.PLACED
    · cases hres : cancelResult c.orderId with
      | some resp =>
        simp only [hc, if_true, hres]
        rw [ih]
        simp [markCancelled, hc, hres, List.filter_cons, List.filterMap_cons]
      | none =>
        simp only [hc, if_true, hres]
        rw [ih]
        simp [markCancelled, hc, hres, List.filter_cons, List.filterMap_cons]
    · simp only [hc, if_false]
      rw [ih]
      simp [markCancelled, hc, List.filter_cons]

lemma cancelSide_spec (cancelResult : ℕ → Option ℕ)
    (orders : List GridChild) :
    cancelSide cancelResult orders =
      (orders.map (markCancelled cancelResult),
        (orders.filter (fun c => c.status = ChildStatus.PLACED)).filterMap
          (fun c => cancelResult c.orderId),
        (orders.filter (fun c => c.status = ChildStatus.PLACED)).map
          (fun c => c.orderId)) := by
  rw [cancelSide, cancelSide_go]
  simp

/-- C4 amended: every PLACED child (buy side then sell side) gets a cancel
attempt, successes are marked CANCELLED (failures stay PLACED), the run
status becomes CANCELLED unconditionally, and one failure does not block
the remaining attempts — but the value returned to the caller collects only
the successful cancel responses; per-order failures are logged, not
returned. -/
theorem cancel_all_grid_orders_spec (cancelResult : ℕ → Option ℕ)
    (g : GridRun) :
    (cancel_all_grid_orders cancelResult g).1.status = RunStatus.CANCELLED ∧
    (cancel_all_grid_orders cancelResult g).2.2 =
      (g.buy_orders.filter
        (fun c => c.status = ChildStatus.PLACED)).map (fun c => c.orderId) ++
      (g.sell_orders.filter
        (fun c => c.status = ChildStatus.PLACED)).map (fun c => c.orderId) ∧
    (cancel_all_grid_orders cancelResult g).1.buy_orders =
      g.buy_orders.map (markCancelled cancelResult) ∧
    (cancel_all_grid_orders cancelResult g).1.sell_orders =
      g.sell_orders.map (markCancelled cancelResult) ∧
    (cancel_all_grid_orders cancelResult g).2.1 =
      (g.buy_orders.filter
        (fun c => c.status = ChildStatus.PLACED)).filterMap
          (fun c => cancelResult c.orderId) ++
      (g.sell_orders.filter
        (fun c => c.status = ChildStatus.PLACED)).filterMap
          (fun c => cancelResult c.orderId) := by
  simp [cancel_all_grid_orders, cancelSide_spec]

/-- The grid run of the C4 counterexample: a single PLACED buy order whose
cancel request fails. -/
def gridRunC4 : GridRun :=
  { buy_orders := [{ orderId := 7, level_price := 100,
                     status := ChildStatus.PLACED }],
    sell_orders := [], status := RunStatus.ACTIVE }

/-- C4 counterexample: with one PLACED order whose cancel fails, a cancel
request is issued (attempts = [7]) but the list returned to the caller is
empty — the per-order failure is not collected or returned, contradicting
the claim's last conjunct. -/
theorem cancel_all_failures_not_returned_cex :
    (cancel_all_grid_orders (fun _ => none) gridRunC4).2.1 = [] ∧
    (cancel_all_grid_orders (fun _ => none) gridRunC4).2.2 = [7] ∧
    (cancel_all_grid_orders (fun _ => none) gridRunC4).1.buy_orders =
      [{ orderId := 7, level_price := 100, status := ChildStatus.PLACED }] ∧
    (cancel_all_grid_orders (fun _ => none) gridRunC4).1.status =
      RunStatus.CANCELLED := by
  refine ⟨rfl, rfl, ?_, rfl⟩
  show [({ orderId := 7, level_price := 100,
           status := ChildStatus.PLACED } : GridChild)] = _
  norm_num [cancel_all_grid_orders, cancelSide, gridRunC4]

/-! ## Initial grid placement (`GridOrderManager._place_initial_grid_orders`)

`place : Side → price → Option orderId` is the exchange's `place_order`
(`none` = the per-level exception, which is logged and does not abort the
remaining levels). -/

/-- The placement loop: a level strictly below the current price gets a
resting BUY limit order appended to `buy_orders`; a level strictly above
gets a SELL order appended to `sell_orders`; a level equal to the current
price gets neither. -/
def place_initial_grid_orders (place : Side → ℚ → Option ℕ)
    (grid_levels : List ℚ) (current_price : ℚ) :
    List GridChild × List GridChild :=
  grid_levels.foldl
    (fun acc level_price =>
      if level_price < current_price then
        match place Side.BUY level_price with
        | some oid =>
            (acc.1 ++ [{ orderId := oid, level_price := level_price,
                         status := ChildStatus.PLACED }], acc.2)
        | none => acc
      else if current_price < level_price then
        match place Side.SELL level_price with
        | some oid =>
            (acc.1, acc.2 ++ [{ orderId := oid, level_price := level_price,
                                status := ChildStatus.PLACED }])
        | none => acc
      else acc)
    ([], [])

lemma place_initial_grid_orders_go (place : Side → ℚ → Option ℕ)
    (f : Side → ℚ → ℕ) (current_price : ℚ)
    (hplace : ∀ s p, place s p = some (f s p)) :
    ∀ (grid_levels : List ℚ) (acc : List GridChild × List GridChild),
      grid_levels.foldl
        (fun acc level_price =>
          if level_price < current_price then
            match place Side.BUY level_price with
            | some oid =>
                (acc.1 ++ [{ orderId := oid, level_price := level_price,
                             status := ChildStatus.PLACED }], acc.2)
            | none => acc
          else if current_price < level_price then
            match place Side.SELL level_price with
            | some oid =>
                (acc.1, acc.2 ++ [{ orderId := oid,
                                    level_price := level_price,
                                    status := ChildStatus.PLACED }])
            | none => acc
          else acc) acc =
      (acc.1 ++ (grid_levels.filter (fun p => p < current_price)).map
          (fun p => { orderId := f Side.BUY p, level_price := p,
                      status := ChildStatus.PLACED }),
        acc.2 ++ (grid_levels.filter (fun p => current_price < p)).map
          (fun p => { orderId := f Side.SELL p, level_price := p,
                      status := ChildStatus.PLACED })) := by
  intro grid_levels
  induction grid_levels with
  | nil => intro acc; simp
  | cons p rest ih =>
    intro acc
    rw [List.foldl_cons]
    by_cases hlt : p < current_price
    · have hgt : ¬ current_price < p := by linarith
      simp only [hlt, if_true, hplace Side.BUY p]
      rw [ih]
      simp [List.filter_cons, hlt, hgt]
    · by_cases hgt : current_price < p
      · simp only [hlt, if_false, hgt, if_true, hplace Side.SELL p]
        rw [ih]
        simp [List.filter_cons, hlt, hgt]
      · simp only [hlt, if_false, hgt]
        rw [ih]
        simp [List.filter_cons, hlt, hgt]

lemma place_initial_grid_orders_filter (place : Side → ℚ → Option ℕ)
    (f : Side → ℚ → ℕ) (grid_levels : List ℚ) (current_price : ℚ)
    (hplace : ∀ s p, place s p = some (f s p)) :
    (place_initial_grid_orders place grid_levels current_price).1 =
      (grid_levels.filter (fun p => p < current_price)).map
        (fun p => { orderId := f Side.BUY p, level_price := p,
                    status := ChildStatus.PLACED }) ∧
    (place_initial_grid_orders place grid_levels current_price).2 =
      (grid_levels.filter (fun p => current_price < p)).map
        (fun p => { orderId := f Side.SELL p, level_price := p,
                    status := ChildStatus.PLACED }) := by
  rw [place_initial_grid_orders,
    place_initial_grid_orders_go place f current_price hplace]
  simp

lemma grid_levels_concrete :
    calculate_grid_levels 45000 55000 11 =
      [45000, 46000, 47000, 48000, 49000, 50000,
        51000, 52000, 53000, 54000, 55000] := by
  norm_num [calculate_grid_levels, List.range_succ]

/-- C8: when every placement succeeds, the buy side holds exactly one
PLACED BUY child per level strictly below the current price (at that
level's price), the sell side one PLACED SELL child per level strictly
above, and a level equal to the current price yields no order; in the
concrete scenario (grid 45000–55000, 11 levels, current price 50000)
exactly 5 BUY and 5 SELL orders are placed and the pivot level 50000 is in
the grid but receives no order. -/
theorem initial_grid_placement_spec (place : Side → ℚ → Option ℕ)
    (f : Side → ℚ → ℕ) (grid_levels : List ℚ) (current_price : ℚ)
    (hplace : ∀ s p, place s p = some (f s p)) :
    ((place_initial_grid_orders place grid_levels current_price).1 =
      (grid_levels.filter (fun p => p < current_price)).map
        (fun p => { orderId := f Side.BUY p, level_price := p,
                    status := ChildStatus.PLACED }) ∧
     (place_initial_grid_orders place grid_levels current_price).2 =
      (grid_levels.filter (fun p => current_price < p)).map
        (fun p => { orderId := f Side.SELL p, level_price := p,
                    status := ChildStatus.PLACED })) ∧
    ((place_initial_grid_orders (fun _ _ => some 0)
        (calculate_grid_levels 45000 55000 11) 50000).1.length = 5 ∧
     (place_initial_grid_orders (fun _ _ => some 0)
        (calculate_grid_levels 45000 55000 11) 50000).2.length = 5 ∧
     (50000 : ℚ) ∈ calculate_grid_levels 45000 55000 11) := by
  have hf := place_initial_grid_orders_filter (fun _ _ => some 0)
    (fun _ _ => 0) (calculate_grid_levels 45000 55000 11) 50000
    (fun _ _ => rfl)
  refine ⟨place_initial_grid_orders_filter place f grid_levels
    current_price hplace, ?_, ?_, ?_⟩
  · rw [hf.1, grid_levels_concrete]
    decide
  · rw [hf.2, grid_levels_concrete]
    decide
  · rw [grid_levels_concrete]
    decide

/-- Witness for C8 at the concrete scenario. -/
theorem initial_grid_placement_spec_witness :
    (((place_initial_grid_orders (fun _ _ => some 0)
        (calculate_grid_levels 45000 55000 11) 50000).1 =
      ((calculate_grid_levels 45000 55000 11).filter
        (fun p => p < 50000)).map
        (fun p => { orderId := (fun (_ : Side) (_ : ℚ) => 0) Side.BUY p,
                    level_price := p, status := ChildStatus.PLACED }) ∧
     (place_initial_grid_orders (fun _ _ => some 0)
        (calculate_grid_levels 45000 55000 11) 50000).2 =
      ((calculate_grid_levels 45000 55000 11).filter
        (fun p => (50000 : ℚ) < p)).map
        (fun p => { orderId := (fun (_ : Side) (_ : ℚ) => 0) Side.SELL p,
                    level_price := p, status := ChildStatus.PLACED })) ∧
    ((place_initial_grid_orders (fun _ _ => some 0)
        (calculate_grid_levels 45000 55000 11) 50000).1.length = 5 ∧
     (place_initial_grid_orders (fun _ _ => some 0)
        (calculate_grid_levels 45000 55000 11) 50000).2.length = 5 ∧
     (50000 : ℚ) ∈ calculate_grid_levels 45000 55000 11)) :=
  initial_grid_placement_spec (fun _ _ => some 0) (fun _ _ => 0)
    (calculate_grid_levels 45000 55000 11) 50000 (fun _ _ => rfl)

/-! ## Strategy start paths (`place_twap_order`, `place_grid_orders`)

The checks that precede any state mutation: parameter validation
(`_validate_twap_order` / `_validate_grid_order`), the connectivity check,
and (grid only) the price fetch and the price-range check.  The outcome
records whether the run was inserted into the registry
(`active_twap_orders[...] = ...` / `active_grids[...] = ...`), whether a
stop flag was created, and how many exchange order placements the call
performed before returning. -/

structure StartEnv where
  validateOk : Bool
  connOk : Bool
  priceResult : Except String ℚ

structure StartOutcome where
  result : Except String Unit
  registered : Bool
  stop_flag_created : Bool
  orders_placed : ℕ
deriving Repr

def result_is_error : Except String Unit → Bool
  | Except.error _ => true
  | Except.ok _ => false

/-- `place_twap_order` up to the spawn of the worker: validation rejection
and connectivity failure abort before the registry insert at twap.py line
113; a price-fetch failure is only a warning; no order is placed before the
call returns (chunks are submitted by the background worker). -/
def place_twap_order_start (env : StartEnv) : StartOutcome :=
  if env.validateOk = false then
    { result := Except.error "Invalid TWAP order parameters",
      registered := false, stop_flag_created := false, orders_placed := 0 }
  else if env.connOk = false then
    { result := Except.error "Unable to connect to Binance API",
      registered := false, stop_flag_created := false, orders_placed := 0 }
  else
    { result := Except.ok (), registered := true,
      stop_flag_created := true, orders_placed := 0 }

/-- `place_grid_orders`: validation, connectivity, price fetch and the
price-range check all precede the registry insert at grid_orders.py line
107 and the initial placements at line 111. -/
def place_grid_orders_start (env : StartEnv)
    (lower_price upper_price : ℚ) (num_levels : ℕ) : StartOutcome :=
  if env.validateOk = false then
    { result := Except.error "Invalid grid order parameters",
      registered := false, stop_flag_created := false, orders_placed := 0 }
  else if env.connOk = false then
    { result := Except.error "Unable to connect to Binance API",
      registered := false, stop_flag_created := false, orders_placed := 0 }
  else
    match env.priceResult with
    | Except.error e =>
        { result := Except.error e, registered := false,
          stop_flag_created := false, orders_placed := 0 }
    | Except.ok current_price =>
      if ¬ (lower_price < current_price ∧ current_price < upper_price) then
        { result := Except.error
            "Current price must be between lower and upper price",
          registered := false, stop_flag_created := false,
          orders_placed := 0 }
      else
        { result := Except.ok (), registered := true,
          stop_flag_created := true,
          orders_placed :=
            ((calculate_grid_levels lower_price upper_price
              num_levels).filter (fun p => p ≠ current_price)).length }

/-- C9: a validation rejection or a connectivity-check failure aborts both
StartTWAP and StartGrid before any state mutation: the result is an error,
no run is registered, no stop flag is created and no order is placed. -/
theorem start_rejects_before_mutation (env : StartEnv)
    (lower_price upper_price : ℚ) (num_levels : ℕ)
    (h : env.validateOk = false ∨ env.connOk = false) :
    (result_is_error (place_twap_order_start env).result = true ∧
      (place_twap_order_start env).registered = false ∧
      (place_twap_order_start env).stop_flag_created = false ∧
      (place_twap_order_start env).orders_placed = 0) ∧
    (result_is_error
        (place_grid_orders_start env lower_price upper_price
          num_levels).result = true ∧
      (place_grid_orders_start env lower_price upper_price
        num_levels).registered = false ∧
      (place_grid_orders_start env lower_price upper_price
        num_levels).stop_flag_created = false ∧
      (place_grid_orders_start env lower_price upper_price
        num_levels).orders_placed = 0) := by
  rcases h with h | h
  · simp [place_twap_order_start, place_grid_orders_start, h,
      result_is_error]
  · cases hv : env.validateOk with
    | false =>
        simp [place_twap_order_start, place_grid_orders_start, hv,
          result_is_error]
    | true =>
        simp [place_twap_order_start, place_grid_orders_start, hv, h,
          result_is_error]

/-- Witness for C9: validation fails on a concrete environment. -/
theorem start_rejects_before_mutation_witness :
    ((StartEnv.mk false true (Except.ok 50000)).validateOk = false ∨
      (StartEnv.mk false true (Except.ok 50000)).connOk = false) ∧
    ((result_is_error
        (place_twap_order_start
          (StartEnv.mk false true (Except.ok 50000))).result = true ∧
      (place_twap_order_start
        (StartEnv.mk false true (Except.ok 50000))).registered = false ∧
      (place_twap_order_start
        (StartEnv.mk false true (Except.ok 50000))).stop_flag_created =
          false ∧
      (place_twap_order_start
        (StartEnv.mk false true (Except.ok 50000))).orders_placed = 0) ∧
    (result_is_error
        (place_grid_orders_start (StartEnv.mk false true (Except.ok 50000))
          45000 55000 11).result = true ∧
      (place_grid_orders_start (StartEnv.mk false true (Except.ok 50000))
        45000 55000 11).registered = false ∧
      (place_grid_orders_start (StartEnv.mk false true (Except.ok 50000))
        45000 55000 11).stop_flag_created = false ∧
      (place_grid_orders_start (StartEnv.mk false true (Except.ok 50000))
        45000 55000 11).orders_placed = 0)) :=
  ⟨Or.inl rfl,
    start_rejects_before_mutation (StartEnv.mk false true (Except.ok 50000))
      45000 55000 11 (Or.inl rfl)⟩

/-! ## Status queries (`get_twap_status`, `get_grid_status`)

Python dict lookups return the stored object itself; mutation happens
through references into a shared heap.  `Registry` models that heap
(`heap : reference → object`) together with the id-to-reference map that
`active_twap_orders` / `active_grids` hold. -/

structure Registry (α : Type) where
  heap : ℕ → Option α
  index : String → Option ℕ

/-- `get_twap_status`: `self.active_twap_orders.get(twap_id, {})` — the
stored reference (the live dict), not a copy of its contents. -/
def get_twap_status {α : Type} (reg : Registry α) (twap_id : String) :
    Option ℕ :=
  reg.index twap_id

/-- `get_grid_status`: `self.active_grids.get(grid_id, {})` — identical
shape. -/
def get_grid_status {α : Type} (reg : Registry α) (grid_id : String) :
    Option ℕ :=
  reg.index grid_id

/-- Reading the run object a reference points to. -/
def derefRun {α : Type} (reg : Registry α) (r : ℕ) : Option α :=
  reg.heap r

/-- The owning worker mutating its run object in place. -/
def mutateRun {α : Type} (reg : Registry α) (r : ℕ) (f : α → α) :
    Registry α :=
  { reg with
    heap := fun r2 => if r2 = r then (reg.heap r2).map f else reg.heap r2 }

/-- Registry of the C10 counterexample: one TWAP run stored at reference 0. -/
def regC10 : Registry TwapState :=
  { heap := fun r => if r = 0 then some initialTwapState else none,
    index := fun _ => some 0 }

def bumpChunks (s : TwapState) : TwapState :=
  { s with executed_chunks := s.executed_chunks + 1 }

/-- C10 counterexample: the status query returns the reference to the live
run object; after the worker increments `executed_chunks`, the value seen
through that same returned reference has changed — the query's result is
not an immutable snapshot. -/
theorem get_status_live_object_cex :
    get_twap_status regC10 "TWAP_BTCUSDT_1" = some 0 ∧
    derefRun regC10 0 = some initialTwapState ∧
    derefRun (mutateRun regC10 0 bumpChunks) 0 ≠ derefRun regC10 0 := by
  refine ⟨rfl, rfl, ?_⟩
  intro h
  simp [derefRun, mutateRun, regC10, bumpChunks, initialTwapState] at h

/-- C10 amended: `get_twap_status` / `get_grid_status` return the live
mutable run object (the stored reference), not a defensive copy: any
effective mutation the worker performs after the query IS visible through
the returned reference, which then no longer shows the value observed at
query time. -/
theorem get_status_returns_live_object {α : Type} (reg : Registry α)
    (run_id : String) (r : ℕ) (f : α → α) (v : α)
    (hget : get_twap_status reg run_id = some r ∨
      get_grid_status reg run_id = some r)
    (hval : derefRun reg r = some v)
    (hf : f v ≠ v) :
    derefRun (mutateRun reg r f) r = some (f v) ∧
    derefRun (mutateRun reg r f) r ≠ derefRun reg r := by
  have hmut : derefRun (mutateRun reg r f) r = some (f v) := by
    simp only [derefRun, mutateRun] at hval ⊢
    simp [hval]
  refine ⟨hmut, ?_⟩
  rw [hmut, hval]
  intro h
  exact hf (Option.some_injective _ h)

/-- Witness for the C10 amended theorem at the counterexample registry. -/
theorem get_status_returns_live_object_witness :
    derefRun (mutateRun regC10 0 bumpChunks) 0 =
      some (bumpChunks initialTwapState) ∧
    derefRun (mutateRun regC10 0 bumpChunks) 0 ≠ derefRun regC10 0 :=
  get_status_returns_live_object regC10 "TWAP_BTCUSDT_1" 0 bumpChunks
    initialTwapState (Or.inl rfl) rfl
    (by simp [bumpChunks, initialTwapState])

end BinanceBot
